import Mathlib

/-
  Verification development for the FarmView AI crop-damage assessment backend.

  The embedding below follows the repository sources:
    * src/config.py   : the Settings object and its NDVI calibration thresholds
    * src/main.py     : the analyze_field request handler (control flow, the
                        try/except wrapper, temp-file lifecycle, the claim
                        estimation and insurance webhook steps)
  The modules ndvi_processor, fintech_integration, sentinel_api and
  visualization are imported by src/main.py but are not present in the
  repository; where a claim depends on them, the relevant function is
  modelled from the specification text and marked as such in its doc comment.

  Floating point numbers are modelled as rationals; Python exceptions as an
  explicit error type threaded through the handler body; Python truthiness of
  an Optional[float] as: None is falsy, a float is truthy iff it is nonzero.
-/

namespace FarmView

/-- NDVI pixel-severity tiers of spec section 4.4; `nodamage` is the tier the
spec calls `none` (renamed to avoid clashing with Option.none). -/
inductive Severity where
  | nodamage
  | damaged
  | severe
deriving DecidableEq, BEq

/-- Modelled from the spec: the module ndvi_processor, which implements the
per-pixel damage classifier, is absent from src. Spec section 4.4 defines the
per-pixel severity tiers by: `none` if delta > damage_threshold; `damaged` if
severe_threshold < delta <= damage_threshold; `severe` if
delta <= severe_threshold. -/
def classify_pixel (dmgT sevT delta : ℚ) : Severity :=
  if dmgT < delta then Severity.nodamage
  else if sevT < delta then Severity.damaged
  else Severity.severe

/-- Number of pixels of a given severity tier among the valid masked NDVI
deltas (invalid and unmasked pixels are already excluded from the list, per
spec section 4.4: they take part in neither numerator nor denominator). -/
def countSeverity (dmgT sevT : ℚ) (deltas : List ℚ) (sv : Severity) : Nat :=
  (deltas.filter (fun d => classify_pixel dmgT sevT d == sv)).length

/-- Damage statistics record of spec section 3. -/
structure DamageStatistics where
  damage_percent : ℚ
  risk_score : ℚ
deriving DecidableEq

/-- Modelled from the spec: ndvi_processor is absent from src. Spec section
4.4 requires risk_score to be a monotone transform of damage_percent and the
severe-tier fraction, bounded to [0,10], with severe pixels contributing more
per unit; the exact weighting is left open by the spec, so we fix the
representative monotone bounded form
risk_score = min 10 (damage_percent / 10 * (1 + severe_frac)). -/
def risk_score (dp severe_frac : ℚ) : ℚ := min 10 (dp / 10 * (1 + severe_frac))

/-- Modelled from the spec: ndvi_processor is absent from src. Spec section
4.4: damage_percent = 100 * (count(damaged) + count(severe)) / count(valid
masked pixels), failing with InsufficientDataError when the valid masked
pixel count is zero. The input list holds the NDVI deltas of exactly the
valid masked pixels. -/
def process_damage (dmgT sevT : ℚ) (deltas : List ℚ) :
    Except String DamageStatistics :=
  if deltas.length = 0 then Except.error "InsufficientDataError"
  else
    let dmg : ℚ := countSeverity dmgT sevT deltas Severity.damaged
    let sev : ℚ := countSeverity dmgT sevT deltas Severity.severe
    let n : ℚ := deltas.length
    Except.ok { damage_percent := 100 * (dmg + sev) / n
                risk_score := risk_score (100 * (dmg + sev) / n) (sev / n) }

/-- Modelled from the spec: the module fintech_integration, which implements
ClaimEstimator.calculate_claim, is absent from src. Spec section 4.5:
amount = insured_amount * f(damage_percent) with f monotonically
non-decreasing, f(0) = 0, f(100) <= 1; we take the linear payout
f(d) = d / 100. -/
def payout_f (d : ℚ) : ℚ := d / 100

/-- Modelled from the spec: section 4.5 requires the final amount to be
clamped to [0, insured_amount] regardless of the shape of f. -/
def clamp_claim (insured raw : ℚ) : ℚ := max 0 (min insured raw)

/-- Modelled from the spec: ClaimEstimator.calculate_claim, called at
src/main.py in step 5 of analyze_field; the raw payout is clamped to
[0, insured_amount]. -/
def calculate_claim (insured dp : ℚ) : ℚ :=
  clamp_claim insured (insured * payout_f dp)

/-- Application settings from src/config.py. The NDVI thresholds are the
class attributes NDVI_DAMAGE_THRESHOLD = -0.2 and
NDVI_SEVERE_DAMAGE_THRESHOLD = -0.4 (plain literals, not read from the
environment); the directory fields are the scratch/static/report paths. -/
structure Settings where
  APP_NAME : String
  APP_VERSION : String
  NDVI_DAMAGE_THRESHOLD : ℚ
  NDVI_SEVERE_DAMAGE_THRESHOLD : ℚ
  TEMP_DIR : String
  REPORTS_DIR : String
  STATIC_DIR : String
deriving DecidableEq

/-- The module-level `settings = Settings()` instance of src/config.py,
constructed once at import time. -/
def settings : Settings :=
  { APP_NAME := "FarmView AI"
    APP_VERSION := "1.0.0"
    NDVI_DAMAGE_THRESHOLD := -0.2
    NDVI_SEVERE_DAMAGE_THRESHOLD := -0.4
    TEMP_DIR := "temp"
    REPORTS_DIR := "reports"
    STATIC_DIR := "static" }

/-- Settings.create_directories of src/config.py: it creates the three
directories on the filesystem (returned here as the list of ensured
directory names) and touches no attribute of the settings object, which is
returned unchanged. -/
def Settings.create_directories (st : Settings) : Settings × List String :=
  (st, [st.TEMP_DIR, st.REPORTS_DIR, st.STATIC_DIR])

/-- The FieldRegistration request body of src/main.py. `insured_amount` is
the Optional[float] field; Python truthiness of that field (None falsy, a
float truthy iff nonzero) is what the handler branches on. -/
structure FieldRegistration where
  farmer_id : String
  crop : String
  coordinates : List (List ℚ)
  event_date : Option String
  insured_amount : Option ℚ
deriving DecidableEq

/-- Python truthiness of an Optional[float] value. -/
def truthy : Option ℚ → Bool
  | none => false
  | some x => x != 0

/-- Area statistics produced by the processing collaborator and copied into
the response by analyze_field. -/
structure AreaStatistics where
  total_area_ha : ℚ
  damaged_area_ha : ℚ
deriving DecidableEq

/-- The dictionary returned by NDVIProcessor.process_field_analysis, as
consumed by analyze_field in src/main.py (the NDVI arrays it also carries
matter to the handler only through the collaborator calls, which are
modelled as part of the environment). -/
structure AnalysisResults where
  damage_statistics : DamageStatistics
  area_statistics : AreaStatistics
deriving DecidableEq

/-- Python exceptions that the analyze_field body can raise: the
HTTPException(404) for missing imagery, the NameError on the unbound name
np at the visualization step, and whatever the processing collaborator
raises. -/
inductive PyExc where
  | httpException (status : Nat) (detail : String)
  | nameError (nm : String)
  | otherError (msg : String)
deriving DecidableEq

/-- Python str(e) for the exceptions above (fastapi HTTPException prints as
status colon detail; the NameError message is abridged without quotes). -/
def PyExc.str : PyExc → String
  | PyExc.httpException s d => toString s ++ ": " ++ d
  | PyExc.nameError nm => "name " ++ nm ++ " is not defined"
  | PyExc.otherError m => m

/-- The detail string of the HTTPException raised by analyze_field when a
satellite image is missing (src/main.py). -/
def missingImagesDetail : String :=
  "Unable to fetch satellite images. Check coordinates and date range."

/-- The AnalysisResponse model of src/main.py. -/
structure AnalysisResponse where
  analysis_id : String
  farmer_id : String
  damage_percent : ℚ
  risk_score : ℚ
  area_hectares : ℚ
  damaged_area_hectares : ℚ
  report_url : String
  map_url : String
  estimated_claim : Option ℚ
deriving DecidableEq

/-- What the HTTP caller of analyze_field observes: a 200 body or an
HTTPException with a status code and detail. -/
inductive Outcome where
  | ok (resp : AnalysisResponse)
  | httpError (status : Nat) (detail : String)
deriving DecidableEq

/-- The environment of one analyze_field invocation: what the collaborators
outside the handler return. `np_bound` records whether the name np is bound
in the namespace of the module instance executing the handler: the import
`import numpy as np` in src/main.py sits inside the `if __name__` guard of
a different module instance, so the served module has np_bound = false. -/
structure Env where
  current_image : Option (List Nat)
  baseline_image : Option (List Nat)
  processor_result : Except PyExc AnalysisResults
  np_bound : Bool
  analysis_id : String
  timestamp : String

/-- Observable side effects of one analyze_field invocation: the temp-file
lifecycle in settings.TEMP_DIR and the insurance webhook dispatch. -/
structure RunState where
  tempWritten : Bool
  tempRemoved : Bool
  insuranceSent : Bool
  sentReportUrl : Option String
deriving DecidableEq

/-- The body of the try block of analyze_field in src/main.py, step by
step: fetch imagery (404 if either image is None), write the two temp
rasters, run the NDVI processor, evaluate np.nanmean at the visualization
step (NameError when np is unbound), compute the claim estimate when
insured_amount is truthy, dispatch the insurance webhook when both
insured_amount and estimated_claim are truthy, unlink the temp files, and
return the response. The returned RunState is the side-effect state at the
point the body returns or raises. -/
def analyze_field_body (_st : Settings) (field : FieldRegistration)
    (env : Env) : Except PyExc AnalysisResponse × RunState :=
  let s0 : RunState :=
    { tempWritten := false, tempRemoved := false
      insuranceSent := false, sentReportUrl := none }
  if env.current_image = none ∨ env.baseline_image = none then
    (Except.error (PyExc.httpException 404 missingImagesDetail), s0)
  else
    let s1 : RunState := { s0 with tempWritten := true }
    match env.processor_result with
    | Except.error e => (Except.error e, s1)
    | Except.ok results =>
      if env.np_bound then
        let estim : Option ℚ :=
          match field.insured_amount with
          | some a =>
            if a != 0 then
              some (calculate_claim a results.damage_statistics.damage_percent)
            else none
          | none => none
        let report_url :=
          "/reports/report_" ++ field.farmer_id ++ "_" ++ env.timestamp ++ ".pdf"
        let map_url :=
          "/static/map_" ++ field.farmer_id ++ "_" ++ env.timestamp ++ ".html"
        let sent : Bool := truthy field.insured_amount && truthy estim
        let s2 : RunState :=
          { s1 with insuranceSent := sent
                    sentReportUrl := if sent then some report_url else none }
        let s3 : RunState := { s2 with tempRemoved := true }
        (Except.ok
          { analysis_id := env.analysis_id
            farmer_id := field.farmer_id
            damage_percent := results.damage_statistics.damage_percent
            risk_score := results.damage_statistics.risk_score
            area_hectares := results.area_statistics.total_area_ha
            damaged_area_hectares := results.area_statistics.damaged_area_ha
            report_url := report_url
            map_url := map_url
            estimated_claim := estim }, s3)
      else
        (Except.error (PyExc.nameError "np"), s1)

/-- The analyze_field handler of src/main.py: the try body wrapped in the
blanket `except Exception` clause, which turns every exception — including
an HTTPException raised inside the try block — into HTTPException(500,
str(e)). The settings object is returned unchanged: no statement of the
handler assigns to any settings attribute. -/
def analyze_field (st : Settings) (field : FieldRegistration) (env : Env) :
    Outcome × RunState × Settings :=
  match analyze_field_body st field env with
  | (Except.ok resp, s) => (Outcome.ok resp, s, st)
  | (Except.error e, s) => (Outcome.httpError 500 (PyExc.str e), s, st)

/-! Concrete fixtures, used by witnesses and counterexamples. The field is
the TEST_FIELD of src/test_api.py with simplified coordinates. -/

/-- A concrete registration request with an insured amount of 500000. -/
def fieldA : FieldRegistration :=
  { farmer_id := "TEST1", crop := "Rice"
    coordinates := [[0, 0], [0, 1], [1, 1], [0, 0]]
    event_date := none
    insured_amount := some 500000 }

/-- Concrete processor output: 50 percent damage. -/
def resultsA : AnalysisResults :=
  { damage_statistics := { damage_percent := 50, risk_score := 5 }
    area_statistics := { total_area_ha := 10, damaged_area_ha := 5 } }

/-- Concrete processor output: zero damage. -/
def resultsZero : AnalysisResults :=
  { damage_statistics := { damage_percent := 0, risk_score := 0 }
    area_statistics := { total_area_ha := 10, damaged_area_ha := 0 } }

/-- Environment of a served request (np unbound, as when the module is
imported by uvicorn) with both images present and a successful processor
run. -/
def envLeak : Env :=
  { current_image := some [1], baseline_image := some [1]
    processor_result := Except.ok resultsA
    np_bound := false, analysis_id := "a1", timestamp := "t1" }

/-- Environment of a hypothetical run in which np is bound and the
processor reports zero damage. -/
def envZero : Env :=
  { current_image := some [1], baseline_image := some [1]
    processor_result := Except.ok resultsZero
    np_bound := true, analysis_id := "a2", timestamp := "t2" }

/-- Environment of a hypothetical fully successful run with 50 percent
damage. -/
def envOk : Env :=
  { current_image := some [1], baseline_image := some [1]
    processor_result := Except.ok resultsA
    np_bound := true, analysis_id := "a3", timestamp := "t3" }

/-- Environment in which the imagery collaborator returns no current
image. -/
def envNoImg : Env :=
  { current_image := none, baseline_image := some [1]
    processor_result := Except.ok resultsA
    np_bound := false, analysis_id := "a4", timestamp := "t4" }

/-- The response produced by the run (settings, fieldA, envZero): the claim
estimate is present and equal to zero. -/
def respZeroClaim : AnalysisResponse :=
  { analysis_id := "a2", farmer_id := "TEST1"
    damage_percent := 0, risk_score := 0
    area_hectares := 10, damaged_area_hectares := 0
    report_url := "/reports/report_TEST1_t2.pdf"
    map_url := "/static/map_TEST1_t2.html"
    estimated_claim := some 0 }

/-- The response produced by the successful run (settings, fieldA, envOk). -/
def respOk : AnalysisResponse :=
  { analysis_id := "a3", farmer_id := "TEST1"
    damage_percent := 50, risk_score := 5
    area_hectares := 10, damaged_area_hectares := 5
    report_url := "/reports/report_TEST1_t3.pdf"
    map_url := "/static/map_TEST1_t3.html"
    estimated_claim := some 250000 }

/-- The side-effect state of the successful run (settings, fieldA, envOk). -/
def runOkState : RunState :=
  { tempWritten := true, tempRemoved := true
    insuranceSent := true
    sentReportUrl := some "/reports/report_TEST1_t3.pdf" }

/-! Helper evaluation lemmas shared by several witnesses. Concrete rational
arithmetic cannot be evaluated by kernel reduction (the Rat operations are
irreducible), so these facts are established once by rewriting. -/

/-- Claim estimate of 500000 insured at 50 percent damage. -/
theorem calculate_claim_500000_50 : calculate_claim 500000 50 = 250000 := by
  unfold calculate_claim clamp_claim payout_f
  rw [min_eq_right (by norm_num), max_eq_right (by norm_num)]
  norm_num

/-- Claim estimate of 500000 insured at zero damage. -/
theorem calculate_claim_500000_0 : calculate_claim 500000 0 = 0 := by
  unfold calculate_claim clamp_claim payout_f
  rw [min_eq_right (by norm_num), max_eq_left (by norm_num)]

/-- Evaluation of the fully successful concrete run. -/
theorem analyze_field_envOk_fst :
    (analyze_field settings fieldA envOk).1 = Outcome.ok respOk := by
  simp only [analyze_field, analyze_field_body, envOk, fieldA, resultsA,
    truthy, calculate_claim_500000_50]
  decide

/-- C2: for every insured_amount > 0 and every damage_percent in [0, 100],
the claim estimate amount satisfies 0 <= amount <= insured_amount, enforced
by clamping the final amount to [0, insured_amount] regardless of the shape
of the payout curve (the first conjunct is the clamp bound for an arbitrary
raw payout, the second the bound for the actual estimator). -/
theorem claim_C2 (insured : ℚ) (hpos : 0 < insured) :
    (∀ raw, 0 ≤ clamp_claim insured raw ∧ clamp_claim insured raw ≤ insured) ∧
    (∀ dp, 0 ≤ dp → dp ≤ 100 →
      0 ≤ calculate_claim insured dp ∧ calculate_claim insured dp ≤ insured) := by
  have hb : ∀ raw, 0 ≤ clamp_claim insured raw ∧ clamp_claim insured raw ≤ insured := by
    intro raw
    unfold clamp_claim
    exact ⟨le_max_left 0 _, max_le hpos.le (min_le_left _ _)⟩
  exact ⟨hb, fun dp _ _ => hb _⟩

/-- C2 witness: the bound at insured_amount 500000 and 50 percent damage. -/
theorem claim_C2_witness :
    (0:ℚ) < 500000 ∧ (0:ℚ) ≤ 50 ∧ (50:ℚ) ≤ 100 ∧
    0 ≤ calculate_claim 500000 50 ∧ calculate_claim 500000 50 ≤ 500000 := by
  refine ⟨by norm_num, by norm_num, by norm_num, ?_⟩
  exact (claim_C2 500000 (by norm_num)).2 50 (by norm_num) (by norm_num)

/-- C8: risk score and claim amount are monotonic in damage: for fixed
severe fraction a larger damage_percent never yields a smaller risk_score,
and for a fixed insured amount increasing damage_percent never decreases
the claim amount. -/
theorem claim_C8 :
    (∀ sf d1 d2 : ℚ, 0 ≤ sf → d1 ≤ d2 →
      risk_score d1 sf ≤ risk_score d2 sf) ∧
    (∀ insured d1 d2 : ℚ, 0 ≤ insured → d1 ≤ d2 →
      calculate_claim insured d1 ≤ calculate_claim insured d2) := by
  constructor
  · intro sf d1 d2 hsf h
    unfold risk_score
    refine min_le_min le_rfl ?_
    have h10 : d1 / 10 ≤ d2 / 10 := by linarith
    have hpos : (0:ℚ) ≤ 1 + sf := by linarith
    exact mul_le_mul_of_nonneg_right h10 hpos
  · intro insured d1 d2 hins h
    unfold calculate_claim clamp_claim payout_f
    refine max_le_max le_rfl (min_le_min le_rfl ?_)
    have h100 : d1 / 100 ≤ d2 / 100 := by linarith
    exact mul_le_mul_of_nonneg_left h100 hins

/-- C8 witness: both monotonicity statements at damage 20 versus 50. -/
theorem claim_C8_witness :
    risk_score 20 (1/2) ≤ risk_score 50 (1/2) ∧
    calculate_claim 500000 20 ≤ calculate_claim 500000 50 :=
  ⟨claim_C8.1 (1/2) 20 50 (by norm_num) (by norm_num),
   claim_C8.2 500000 20 50 (by norm_num) (by norm_num)⟩

/-- C10 counterexample: under the per-pixel tier definitions of spec
section 4.4 (none iff delta > damage_threshold, damaged iff
severe_threshold < delta <= damage_threshold, severe iff
delta <= severe_threshold), a delta exactly equal to the damage threshold
-0.2 classifies as damaged, not none, and a delta exactly equal to the
severe threshold -0.4 classifies as severe, not damaged — refuting the
claimed inclusive-toward-less-severe tie-break. -/
theorem claim_C10_cex :
    classify_pixel (-0.2) (-0.4) (-0.2) = Severity.damaged ∧
    classify_pixel (-0.2) (-0.4) (-0.2) ≠ Severity.nodamage ∧
    classify_pixel (-0.2) (-0.4) (-0.4) = Severity.severe ∧
    classify_pixel (-0.2) (-0.4) (-0.4) ≠ Severity.damaged := by
  have h1 : classify_pixel (-0.2) (-0.4) (-0.2) = Severity.damaged := by
    unfold classify_pixel
    rw [if_neg (by norm_num), if_pos (by norm_num)]
  have h2 : classify_pixel (-0.2) (-0.4) (-0.4) = Severity.severe := by
    unfold classify_pixel
    rw [if_neg (by norm_num), if_neg (by norm_num)]
  refine ⟨h1, ?_, h2, ?_⟩
  · rw [h1]; decide
  · rw [h2]; decide

/-- C10 amended: severity classification tie-breaks at exact threshold
boundaries are inclusive toward the more-severe tier: for every pixel with
delta exactly equal to damage_threshold the classification is damaged, and
for every pixel with delta exactly equal to severe_threshold the
classification is severe (whenever severe_threshold < damage_threshold). -/
theorem claim_C10_amended (dmgT sevT : ℚ) (h : sevT < dmgT) :
    classify_pixel dmgT sevT dmgT = Severity.damaged ∧
    classify_pixel dmgT sevT sevT = Severity.severe := by
  constructor
  · unfold classify_pixel
    rw [if_neg (lt_irrefl dmgT), if_pos h]
  · unfold classify_pixel
    rw [if_neg (not_lt.mpr h.le), if_neg (lt_irrefl sevT)]

/-- C10 amended witness: the boundary classifications at the default
thresholds -0.2 and -0.4. -/
theorem claim_C10_amended_witness :
    classify_pixel (-0.2) (-0.4) (-0.2 : ℚ) = Severity.damaged ∧
    classify_pixel (-0.2) (-0.4) (-0.4 : ℚ) = Severity.severe :=
  claim_C10_amended (-0.2) (-0.4) (by norm_num)

/-- C6: the calibration constants are damage_threshold -0.2 and
severe_damage_threshold -0.4 by default, loaded once at process start (the
settings instance of src/config.py), and immutable thereafter: neither
create_directories nor an analyze_field invocation changes any settings
attribute. -/
theorem claim_C6 :
    settings.NDVI_DAMAGE_THRESHOLD = -0.2 ∧
    settings.NDVI_SEVERE_DAMAGE_THRESHOLD = -0.4 ∧
    (∀ st : Settings, (Settings.create_directories st).1 = st) ∧
    (∀ (st : Settings) (field : FieldRegistration) (env : Env),
      (analyze_field st field env).2.2 = st) := by
  refine ⟨rfl, rfl, fun st => rfl, fun st field env => ?_⟩
  unfold analyze_field
  rcases analyze_field_body st field env with ⟨r, s⟩
  cases r <;> rfl

/-- C7: when satellite imagery is unavailable, the body of analyze_field
raises HTTPException with status 404, but the blanket except clause of the
handler re-raises it as status 500 — the caller observes HTTP 500, never
the intended 404. -/
theorem claim_C7 (st : Settings) (field : FieldRegistration) (env : Env)
    (h : env.current_image = none ∨ env.baseline_image = none) :
    (analyze_field_body st field env).1 =
      Except.error (PyExc.httpException 404 missingImagesDetail) ∧
    (analyze_field st field env).1 =
      Outcome.httpError 500 (PyExc.str (PyExc.httpException 404 missingImagesDetail)) ∧
    (∀ d, (analyze_field st field env).1 ≠ Outcome.httpError 404 d) := by
  have hb : analyze_field_body st field env =
      (Except.error (PyExc.httpException 404 missingImagesDetail),
       { tempWritten := false, tempRemoved := false
         insuranceSent := false, sentReportUrl := none }) := by
    unfold analyze_field_body
    rw [if_pos h]
  refine ⟨by rw [hb], by unfold analyze_field; rw [hb], ?_⟩
  intro d hcontra
  unfold analyze_field at hcontra
  rw [hb] at hcontra
  simp at hcontra

/-- C7 witness: the concrete run with a missing current image is observed
as HTTP 500. -/
theorem claim_C7_witness :
    (analyze_field settings fieldA envNoImg).1 =
      Outcome.httpError 500 (PyExc.str (PyExc.httpException 404 missingImagesDetail)) :=
  (claim_C7 settings fieldA envNoImg (Or.inl rfl)).2.1

/-- C1: in the module instance served by uvicorn the name np is unbound
(the numpy import sits inside a main guard of a different module instance),
so no analyze_field invocation can return a 200 response, and every
invocation that reaches the visualization step (images present, processor
succeeded) fails with the NameError on np, observed as HTTP 500. -/
theorem claim_C1 (st : Settings) (field : FieldRegistration) (env : Env)
    (hnp : env.np_bound = false) :
    (∀ resp, (analyze_field st field env).1 ≠ Outcome.ok resp) ∧
    (∀ results, env.current_image ≠ none → env.baseline_image ≠ none →
      env.processor_result = Except.ok results →
      (analyze_field st field env).1 =
        Outcome.httpError 500 (PyExc.str (PyExc.nameError "np"))) := by
  have key : ∀ resp s, analyze_field_body st field env ≠ (Except.ok resp, s) := by
    intro resp s hok
    unfold analyze_field_body at hok
    by_cases hi : env.current_image = none ∨ env.baseline_image = none
    · rw [if_pos hi] at hok
      simp at hok
    · rw [if_neg hi] at hok
      cases hpr : env.processor_result with
      | error e => rw [hpr] at hok; simp at hok
      | ok results => rw [hpr, hnp] at hok; simp at hok
  constructor
  · intro resp hok
    unfold analyze_field at hok
    rcases hb : analyze_field_body st field env with ⟨r, s⟩
    rw [hb] at hok
    cases r with
    | ok a => exact key a s hb
    | error e => simp at hok
  · intro results hci hbi hpr
    unfold analyze_field analyze_field_body
    rw [if_neg (not_or.mpr ⟨hci, hbi⟩), hpr, hnp]
    rfl

/-- C1 witness: the concrete served run with both images present and a
successful processor result returns HTTP 500 with the NameError message
and is not the success response. -/
theorem claim_C1_witness :
    (analyze_field settings fieldA envLeak).1 ≠ Outcome.ok respOk ∧
    (analyze_field settings fieldA envLeak).1 =
      Outcome.httpError 500 (PyExc.str (PyExc.nameError "np")) :=
  ⟨(claim_C1 settings fieldA envLeak rfl).1 respOk,
   (claim_C1 settings fieldA envLeak rfl).2 resultsA (by decide) (by decide) rfl⟩

/-- C3 counterexample: a concrete run in which an exception (the NameError
at the visualization step) is raised after the two temp rasters are
written, yet the temp files are not removed before the invocation returns
— refuting the claimed guaranteed release on failure exits. -/
theorem claim_C3_cex :
    (analyze_field settings fieldA envLeak).2.1.tempWritten = true ∧
    (analyze_field settings fieldA envLeak).1 =
      Outcome.httpError 500 (PyExc.str (PyExc.nameError "np")) ∧
    (analyze_field settings fieldA envLeak).2.1.tempRemoved = false :=
  ⟨rfl, rfl, rfl⟩

/-- C3 amended: the temp rasters are released only on the success path:
every failure exit of the body leaves them unremoved (leaked whenever they
were written), while every successful exit has written and removed them. -/
theorem claim_C3_amended (st : Settings) (field : FieldRegistration) (env : Env) :
    (∀ e s, analyze_field_body st field env = (Except.error e, s) →
      s.tempRemoved = false) ∧
    (∀ resp s, analyze_field_body st field env = (Except.ok resp, s) →
      s.tempWritten = true ∧ s.tempRemoved = true) := by
  constructor
  · intro e s h
    unfold analyze_field_body at h
    by_cases hi : env.current_image = none ∨ env.baseline_image = none
    · rw [if_pos hi] at h
      obtain ⟨-, rfl⟩ := Prod.mk.injEq .. ▸ h
      rfl
    · rw [if_neg hi] at h
      cases hpr : env.processor_result with
      | error e2 =>
        rw [hpr] at h
        obtain ⟨-, rfl⟩ := Prod.mk.injEq .. ▸ h
        rfl
      | ok results =>
        rw [hpr] at h
        cases hnp : env.np_bound with
        | false =>
          rw [hnp] at h
          obtain ⟨-, rfl⟩ := Prod.mk.injEq .. ▸ h
          rfl
        | true =>
          rw [hnp] at h
          simp at h
  · intro resp s h
    unfold analyze_field_body at h
    by_cases hi : env.current_image = none ∨ env.baseline_image = none
    · rw [if_pos hi] at h
      simp at h
    · rw [if_neg hi] at h
      cases hpr : env.processor_result with
      | error e2 =>
        rw [hpr] at h
        simp at h
      | ok results =>
        rw [hpr] at h
        cases hnp : env.np_bound with
        | false =>
          rw [hnp] at h
          simp at h
        | true =>
          rw [hnp] at h
          obtain ⟨-, rfl⟩ := Prod.mk.injEq .. ▸ h
          exact ⟨rfl, rfl⟩

/-- C3 amended witness: the concrete leaking run exits with an error and
its side-effect state has the temp files written but not removed. -/
theorem claim_C3_amended_witness :
    analyze_field_body settings fieldA envLeak =
      (Except.error (PyExc.nameError "np"),
       { tempWritten := true, tempRemoved := false
         insuranceSent := false, sentReportUrl := none }) ∧
    ({ tempWritten := true, tempRemoved := false
       insuranceSent := false, sentReportUrl := none } : RunState).tempRemoved = false :=
  ⟨rfl, (claim_C3_amended settings fieldA envLeak).1 _ _ rfl⟩

/-- C4 counterexample: a completed analysis with a present ClaimEstimate
computed as 0 (insured_amount supplied, zero damage) for which the
insurance webhook is not dispatched, because the guard
`if field.insured_amount and estimated_claim` treats the float 0.0 as
falsy — refuting the claim that every present estimate is handed off. -/
theorem claim_C4_cex :
    (analyze_field settings fieldA envZero).1 = Outcome.ok respZeroClaim ∧
    respZeroClaim.estimated_claim = some 0 ∧
    (analyze_field settings fieldA envZero).2.1.insuranceSent = false := by
  refine ⟨?_, rfl, ?_⟩
  · simp only [analyze_field, analyze_field_body, envZero, fieldA, resultsZero,
      truthy, calculate_claim_500000_0]
    decide
  · simp only [analyze_field, analyze_field_body, envZero, fieldA, resultsZero,
      truthy, calculate_claim_500000_0]
    decide

/-- C4 amended: on every completed analysis the insurance webhook is
dispatched if and only if the insured_amount is truthy and the computed
claim amount is nonzero (a present estimate of 0 is skipped); whenever it
is dispatched, it carries the report URL of the response. -/
theorem claim_C4_amended (st : Settings) (field : FieldRegistration)
    (env : Env) (resp : AnalysisResponse)
    (h : (analyze_field st field env).1 = Outcome.ok resp) :
    ((analyze_field st field env).2.1.insuranceSent = true ↔
      ∃ c, resp.estimated_claim = some c ∧ c ≠ 0) ∧
    ((analyze_field st field env).2.1.insuranceSent = true →
      (analyze_field st field env).2.1.sentReportUrl = some resp.report_url) := by
  unfold analyze_field at h ⊢
  rcases hb : analyze_field_body st field env with ⟨r, s⟩
  rw [hb] at h
  cases r with
  | error e => simp at h
  | ok a =>
    obtain rfl : a = resp := by simpa using h
    unfold analyze_field_body at hb
    by_cases hi : env.current_image = none ∨ env.baseline_image = none
    · rw [if_pos hi] at hb
      simp at hb
    · rw [if_neg hi] at hb
      cases hpr : env.processor_result with
      | error e2 =>
        rw [hpr] at hb
        simp at hb
      | ok results =>
        cases hnp : env.np_bound with
        | false =>
          rw [hpr, hnp] at hb
          simp at hb
        | true =>
          rw [hpr, hnp] at hb
          obtain ⟨h1, rfl⟩ := Prod.mk.injEq .. ▸ hb
          obtain rfl := Except.ok.inj h1
          cases hins : field.insured_amount with
          | none => simp [truthy, hins]
          | some aIns =>
            by_cases ha : aIns = 0
            · subst ha
              simp [truthy, hins]
            · simp [truthy, hins, ha]

/-- C4 amended witness: the successful concrete run with a 250000 claim
dispatches the webhook with the report URL of the response. -/
theorem claim_C4_amended_witness :
    (analyze_field settings fieldA envOk).2.1.sentReportUrl =
      some respOk.report_url := by
  have h := claim_C4_amended settings fieldA envOk respOk analyze_field_envOk_fst
  exact h.2 (h.1.mpr ⟨250000, rfl, by norm_num⟩)

/-- C5: the estimated_claim field of the analysis result is present only
if an insured_amount was supplied: with no insured_amount the returned
estimated_claim is None, and whenever a claim is present an insured_amount
was provided (and was nonzero). -/
theorem claim_C5 (st : Settings) (field : FieldRegistration)
    (env : Env) (resp : AnalysisResponse)
    (h : (analyze_field st field env).1 = Outcome.ok resp) :
    (field.insured_amount = none → resp.estimated_claim = none) ∧
    (∀ c, resp.estimated_claim = some c →
      ∃ a, field.insured_amount = some a ∧ a ≠ 0) := by
  unfold analyze_field at h
  rcases hb : analyze_field_body st field env with ⟨r, s⟩
  rw [hb] at h
  cases r with
  | error e => simp at h
  | ok a =>
    obtain rfl : a = resp := by simpa using h
    unfold analyze_field_body at hb
    by_cases hi : env.current_image = none ∨ env.baseline_image = none
    · rw [if_pos hi] at hb
      simp at hb
    · rw [if_neg hi] at hb
      cases hpr : env.processor_result with
      | error e2 =>
        rw [hpr] at hb
        simp at hb
      | ok results =>
        cases hnp : env.np_bound with
        | false =>
          rw [hpr, hnp] at hb
          simp at hb
        | true =>
          rw [hpr, hnp] at hb
          obtain ⟨h1, rfl⟩ := Prod.mk.injEq .. ▸ hb
          obtain rfl := Except.ok.inj h1
          cases hins : field.insured_amount with
          | none => simp [hins]
          | some aIns =>
            by_cases ha : aIns = 0
            · subst ha
              simp [hins]
            · simp [hins, ha]

/-- C5 witness: in the successful concrete run the present claim estimate
of 250000 implies the supplied insured amount is nonzero. -/
theorem claim_C5_witness :
    ∃ a, fieldA.insured_amount = some a ∧ a ≠ 0 :=
  (claim_C5 settings fieldA envOk respOk analyze_field_envOk_fst).2 250000 rfl

/-- C9: damage_percent equals 100 * (count(damaged) + count(severe)) /
count(valid masked pixels); classification fails with
InsufficientDataError exactly when the valid masked pixel count is zero;
and a nonempty field with no damaged pixel is a successful zero-damage
result, never the error — the "cannot assess" outcome is distinct from
zero damage. -/
theorem claim_C9 (dmgT sevT : ℚ) (deltas : List ℚ) :
    (process_damage dmgT sevT deltas = Except.error "InsufficientDataError" ↔
      deltas.length = 0) ∧
    (∀ stats, process_damage dmgT sevT deltas = Except.ok stats →
      stats.damage_percent =
        100 * ((countSeverity dmgT sevT deltas Severity.damaged : ℚ) +
          (countSeverity dmgT sevT deltas Severity.severe : ℚ)) /
          (deltas.length : ℚ)) ∧
    (deltas.length ≠ 0 → (∀ d ∈ deltas, dmgT < d) →
      process_damage dmgT sevT deltas =
        Except.ok { damage_percent := 0, risk_score := 0 }) := by
  refine ⟨?_, ?_, ?_⟩
  · unfold process_damage
    by_cases hl : deltas.length = 0
    · simp [hl]
    · simp [hl]
  · intro stats h
    unfold process_damage at h
    by_cases hl : deltas.length = 0
    · rw [if_pos hl] at h
      simp at h
    · rw [if_neg hl] at h
      obtain rfl := (Except.ok.inj h).symm
      rfl
  · intro hl hall
    have hnone : ∀ sv, sv ≠ Severity.nodamage →
        countSeverity dmgT sevT deltas sv = 0 := by
      intro sv hsv
      unfold countSeverity
      rw [List.length_eq_zero, List.filter_eq_nil_iff]
      intro d hd
      have hcl : classify_pixel dmgT sevT d = Severity.nodamage := by
        unfold classify_pixel
        rw [if_pos (hall d hd)]
      rw [hcl]
      cases sv with
      | nodamage => exact absurd rfl hsv
      | damaged => decide
      | severe => decide
    unfold process_damage
    rw [if_neg hl]
    have hd0 := hnone Severity.damaged (by simp)
    have hs0 := hnone Severity.severe (by simp)
    rw [hd0, hs0]
    have hdp : (100:ℚ) * ((0:ℕ) + (0:ℕ)) / (deltas.length:ℚ) = 0 := by
      norm_num
    have hrs : risk_score 0 ((0:ℕ) / (deltas.length:ℚ)) = 0 := by
      unfold risk_score
      rw [Nat.cast_zero, zero_div]
      rw [min_eq_right (by norm_num)]
      norm_num
    simp only [hdp, hrs]

/-- C9 witness: a single undamaged valid masked pixel yields a successful
zero-damage result with the damage percent given by the count formula. -/
theorem claim_C9_witness :
    process_damage (-2) (-4) [-1] =
      Except.ok { damage_percent := 0, risk_score := 0 } ∧
    (DamageStatistics.mk 0 0).damage_percent =
      100 * ((countSeverity (-2) (-4) [-1] Severity.damaged : ℚ) +
        (countSeverity (-2) (-4) [-1] Severity.severe : ℚ)) /
        (([(-1:ℚ)].length : ℚ)) := by
  have h := (claim_C9 (-2) (-4) [-1]).2.2 (by decide) (by
    intro d hd
    simp only [List.mem_singleton] at hd
    subst hd
    norm_num)
  exact ⟨h, (claim_C9 (-2) (-4) [-1]).2.1 _ h⟩

end FarmView
